import Mathlib

/-!
Verification of the CLMS clipping / quicklook pipeline
(`clip_clms_NDVI_SOAM.py`, `clip_clms_LAI_SOAM.py`, `automation_script.py`).

The Python functions are shallowly embedded as Lean definitions:
coordinate values become rationals (the scripts manipulate them only by
subtraction, absolute value and comparison), array indices become naturals
(all index arithmetic in the scripts stays non-negative, and Python's
`max(0, a - b)` coincides with truncated natural subtraction), raster data
becomes lists of integers, and fallible code returns `Except`/`Option`.
-/

namespace ClmsClip

/-- Absolute value on ℚ, written out so the kernel can evaluate it. -/
def absq (x : ℚ) : ℚ := if x < 0 then -x else x

/-- Scanning worker of `np.argmin(np.abs(xs - target))`: keeps the first
index attaining the smallest absolute difference seen so far. -/
def argminAux (t : ℚ) : List ℚ → Nat → ℚ → Nat → Nat
  | [], bestIdx, _, _ => bestIdx
  | x :: rest, bestIdx, bestVal, cur =>
      if absq (x - t) < bestVal then argminAux t rest cur (absq (x - t)) (cur + 1)
      else argminAux t rest bestIdx bestVal (cur + 1)

/-- `np.argmin(np.abs(xs - target))`: first index of `xs` whose value is
nearest (in absolute difference) to `t` (0 on the empty list, matching the
use sites where the axis is never empty). -/
def argminAbs (xs : List ℚ) (t : ℚ) : Nat :=
  match xs with
  | [] => 0
  | x :: rest => argminAux t rest 0 (absq (x - t)) 1

/-- The index windows computed by `clip_all_vars_netcdf4` in its
origin+extent branch, plus the flag recording whether the size-mismatch
warning is printed.  Each window is the half-open index range
`[latStart, latEnd)` × `[lonStart, lonEnd)`. -/
structure ClipWindows where
  latStart : Nat
  latEnd : Nat
  lonStart : Nat
  lonEnd : Nat
  warn : Bool
  deriving Repr, DecidableEq

/-- Origin+extent branch of `clip_all_vars_netcdf4` (identical in
`clip_clms_NDVI_SOAM.py` and `clip_clms_LAI_SOAM.py`):
nearest-index lookup of the origin along each axis, a one-index rightward
shift of the longitude start clamped to the last valid index, end indices
clamped to the axis length, and a pull-back of the start index whenever the
clamping shrank the window below the requested extent
(`adjusted_clip_width` in the source equals `clip_width`; the `+ 1` is
commented out).  The warning flag reproduces the final
`output_height != clip_height or output_width != adjusted_clip_width` test. -/
def originExtentWindows (latValues lonValues : List ℚ) (originLat originLon : ℚ)
    (clipWidth clipHeight : Nat) : ClipWindows :=
  let latStart0 := argminAbs latValues originLat
  let lonStart0 := argminAbs lonValues originLon
  let lonStart1 := min (lonStart0 + 1) (lonValues.length - 1)
  let latEnd := min (latStart0 + clipHeight) latValues.length
  let lonEnd := min (lonStart1 + clipWidth) lonValues.length
  let latStart := if latEnd - latStart0 < clipHeight then latEnd - clipHeight else latStart0
  let lonStart := if lonEnd - lonStart1 < clipWidth then lonEnd - clipWidth else lonStart1
  let outputHeight := latEnd - latStart
  let outputWidth := lonEnd - lonStart
  { latStart := latStart, latEnd := latEnd, lonStart := lonStart, lonEnd := lonEnd,
    warn := outputHeight != clipHeight || outputWidth != clipWidth }

/-- The demonstration latitude axis of the spec's concrete scenario:
`lat = [20.0, 19.991, …]`, decreasing in steps of 0.009. -/
def demoLat : List ℚ := (List.range 101).map (fun i => 20 - (9 : ℚ) / 1000 * i)

/-- The demonstration longitude axis of the spec's concrete scenario:
`lon = [-110.0, -109.991, …]`, increasing in steps of 0.009. -/
def demoLon : List ℚ := (List.range 101).map (fun i => -110 + (9 : ℚ) / 1000 * i)

/-- A source dataset as far as `clip_all_vars_netcdf4` reads it: the two
coordinate axes (the data variables are sliced with exactly the same index
windows, so the coordinate slices carry the whole windowing behaviour). -/
structure SrcDataset where
  lat : List ℚ
  lon : List ℚ
  deriving Repr, DecidableEq

/-- Python's `xs[a:b]` for `0 ≤ a ≤ b`. -/
def pySlice (xs : List ℚ) (a b : Nat) : List ℚ := (xs.drop a).take (b - a)

/-- Result of the `with nc.Dataset(...)` body of `clip_all_vars_netcdf4`:
the computed windows and the sliced coordinate axes written to the output
file. -/
structure ClipOutput where
  windows : ClipWindows
  outLat : List ℚ
  outLon : List ℚ
  deriving Repr, DecidableEq

/-- The body of `clip_all_vars_netcdf4` (origin+extent mode): compute the
windows and slice the coordinate axes. -/
def clipBody (src : SrcDataset) (originLat originLon : ℚ) (clipWidth clipHeight : Nat) :
    ClipOutput :=
  let r := originExtentWindows src.lat src.lon originLat originLon clipWidth clipHeight
  { windows := r
    outLat := pySlice src.lat r.latStart r.latEnd
    outLon := pySlice src.lon r.lonStart r.lonEnd }

/-- `clip_all_vars_netcdf4` with its top-level `try/except Exception`:
the whole body runs inside the `try`, so an exception from opening or
copying (`openSrc = .error _`) is caught and logged and the function
returns normally with no output file written (`none`); on success the
output file holds the clipped data (`some _`).  Callers can therefore
detect failure only by checking for the output file. -/
def clip_all_vars_netcdf4 (openSrc : Except String SrcDataset) (originLat originLon : ℚ)
    (clipWidth clipHeight : Nat) : Option ClipOutput :=
  match openSrc with
  | .error _ => none
  | .ok src => some (clipBody src originLat originLon clipWidth clipHeight)

/-! ### Quicklook parameter validation (`createQuicklook` / `createQuicklook_new`) -/

/-- The quicklook configuration fields consulted by the validation phase.
`ql_Subsample` is `none` when the Python value is not a list; otherwise the
entries, each as (is it an `int`?, its value). -/
structure QlParams where
  ql_NDV : ℤ
  ql_Min : ℤ
  ql_Max : ℤ
  ql_Subsample : Option (List (Bool × ℤ))
  inFileExists : Bool
  deriving Repr, DecidableEq

/-- Python's `x in range(0, 256)` for an integer `x`. -/
def inByteRange (x : ℤ) : Bool := decide (0 ≤ x) && decide (x ≤ 255)

/-- The NDV/Min/Max range test shared by both quicklook generators. -/
def qlRangesOk (p : QlParams) : Bool :=
  inByteRange p.ql_NDV && inByteRange p.ql_Min && inByteRange p.ql_Max

/-- `createQuicklook_new`'s subsample test: a list of exactly two positive
integers. -/
def subsampleOkNew (p : QlParams) : Bool :=
  match p.ql_Subsample with
  | none => false
  | some l => l.length == 2 && l.all (fun e => e.1 && decide (0 < e.2))

/-- The legacy `createQuicklook`'s subsample test: only
`type(qlDict['ql_Subsample']) == list`. -/
def subsampleOkOld (p : QlParams) : Bool := p.ql_Subsample.isSome

/-- Outcome of the validation phase: a structured failure (returned before
any output I/O) or fall-through into the conversion code. -/
inductive QlOutcome where
  | failure (msg : String)
  | proceeded
  deriving Repr, DecidableEq

/-- `true` iff the validation fell through into the conversion code. -/
def QlOutcome.ok : QlOutcome → Bool
  | .failure _ => false
  | .proceeded => true

/-- Validation phase of `createQuicklook_new` (`clip_clms_NDVI_SOAM.py`):
byte-range check, two-positive-ints subsample check, file-existence check,
in source order, each returning `(False, msg)`. -/
def createQuicklook_new_validate (p : QlParams) : QlOutcome :=
  if !qlRangesOk p then
    .failure "Error createQuicklook: ql_ parameters (NDV, Min, Max) not within the expected output gdal.GDT_Byte range (0-255)."
  else if !subsampleOkNew p then
    .failure "Error createQuicklook: ql_Subsample should be a list of two positive integers, e.g., [5,5]."
  else if !p.inFileExists then
    .failure "Error createQuicklook: Input file not found"
  else .proceeded

/-- Validation phase of the legacy `createQuicklook`
(`clip_clms_LAI_SOAM.py` and `clip_clms_NDVI_SOAM.py`): byte-range check,
list-type-only subsample check, file-existence check, each returning
`(1, msg)`. -/
def createQuicklook_validate (p : QlParams) : QlOutcome :=
  if !qlRangesOk p then
    .failure "Error createQuicklook, ql_ parameters not within the expected output gdal.GDT_Byte range "
  else if !subsampleOkOld p then
    .failure "Error createQuicklook, ql_Subsample should be of type list"
  else if !p.inFileExists then
    .failure "Error createQuicklook, input not existing"
  else .proceeded

/-! ### Byte quantization (`scaleParams` selection and the raster library's rescale) -/

/-- Clamp an integer into the unsigned-8-bit display range. -/
def clampByte (x : ℤ) : ℤ := max 0 (min 255 x)

/-- The `scaleParams` selection of `createQuicklook` (lines 399–416 of
`clip_clms_NDVI_SOAM.py`, identically in `clip_clms_LAI_SOAM.py`):
`None` when the source range already equals the requested output range,
an error when no source range is determinable, and otherwise the single
band scaling record `[[src_Min, src_Max, ql_Min, ql_Max]]`. -/
def selectScaleParams (srcMin srcMax : Option ℤ) (qlMin qlMax : ℤ) :
    Except String (Option (Option ℤ × Option ℤ × ℤ × ℤ)) :=
  if srcMin ≠ some qlMin ∨ srcMax ≠ some qlMax then
    if srcMin = none ∧ srcMax = none then
      .error "Error createQuicklook. impossible to convert inputband_Type to Byte without valid_range."
    else .ok (some (srcMin, srcMax, qlMin, qlMax))
  else .ok none

/-- Modelled from the spec: the affine byte rescale performed by the external
raster library (`gdal.Translate` with `outputType=Byte`), which is not part of
this repository's sources.  With scale parameters the output is
`(value - src_min) / (src_max - src_min) * (dst_max - dst_min) + dst_min`,
rounded and clamped to `[0,255]`; with `scaleParams=None` the value is only
rounded and clamped. -/
def gdalTranslateByte (scaleParams : Option (ℚ × ℚ × ℚ × ℚ)) (v : ℚ) : ℤ :=
  match scaleParams with
  | none => clampByte (round v)
  | some (sMin, sMax, dMin, dMax) =>
      clampByte (round ((v - sMin) / (sMax - sMin) * (dMax - dMin) + dMin))

/-! ### Quality-flag override (`createQuicklook_new`, step 4) -/

/-- Step 4 of `createQuicklook_new`: when a flag band was read, and its shape
matches the primary band's, every pixel whose flag equals the trigger value is
overwritten with the override value (`processed[mask] = override`); a shape
mismatch skips the modification with a warning, leaving the data unchanged.
Arrays are modelled flattened, so the shape test is a length test.  The
returned Bool records whether the modification was applied. -/
def applyQflagOverride (data : List ℤ) (qflag : Option (List ℤ)) (trigger override : ℤ) :
    List ℤ × Bool :=
  match qflag with
  | none => (data, false)
  | some q =>
      if data.length = q.length then
        (((data.zip q).map fun p => if p.2 = trigger then override else p.1), true)
      else (data, false)

/-- The byte raster written by `createQuicklook_new` to the in-memory output
band: the affine-scaling step of the source is commented out, so the band
holds exactly the flag-processed array. -/
def createQuicklook_new_raster (data : List ℤ) (qflag : Option (List ℤ))
    (trigger override : ℤ) : List ℤ :=
  (applyQflagOverride data qflag trigger override).1

/-! ### Processed-file ledger (`automation_script.py`) -/

/-- The characters Python's `str.strip()` removes at either end. -/
def isPySpace (c : Char) : Bool :=
  c = ' ' || c = '\t' || c = '\n' || c = '\r' || c = '\x0b' || c = '\x0c'

/-- Python's `s.strip()` on a character list. -/
def pyStrip (s : List Char) : List Char :=
  ((s.dropWhile isPySpace).reverse.dropWhile isPySpace).reverse

/-- Split a file's character content into lines at `'\n'` (iterating a
Python text file yields the same lines up to the retained newline characters,
which `strip()` removes, and up to a final empty chunk after a trailing
newline, which the emptiness filter in `load_processed_list` drops). -/
def splitLines : List Char → List (List Char)
  | [] => [[]]
  | c :: cs =>
      if c = '\n' then [] :: splitLines cs
      else
        match splitLines cs with
        | [] => [[c]]
        | l :: ls => (c :: l) :: ls

/-- `load_processed_list`: the set of stripped, non-empty lines of the ledger
file (membership in the returned list models membership in the Python set). -/
def load_processed_list (content : List Char) : List (List Char) :=
  ((splitLines content).map pyStrip).filter (fun l => !l.isEmpty)

/-- `write_to_processed_list`: append `filename + '\n'` to the ledger file. -/
def write_to_processed_list (content filename : List Char) : List Char :=
  content ++ filename ++ ['\n']

/-- The driver's `filename in processed_files` check against a reloaded
ledger. -/
def is_processed (content filename : List Char) : Bool :=
  (load_processed_list content).contains filename

/-- Ledger file produced by marking `names` in order, starting from an empty
file. -/
def buildLedger (names : List (List Char)) : List Char :=
  names.foldr (fun n acc => n ++ '\n' :: acc) []

/-- A name the ledger round-trips exactly: non-empty, newline-free and
invariant under `strip()`. -/
def cleanName (n : List Char) : Prop :=
  n ≠ [] ∧ pyStrip n = n ∧ '\n' ∉ n ∧ '\r' ∉ n

instance (n : List Char) : Decidable (cleanName n) := by
  unfold cleanName
  infer_instance

/-! ### XML parameter substitution (`replace_xml_parameters`) -/

/-- Worker for `subKey`, structurally recursive on a fuel bound (the fuel
always dominates the remaining input's length, so it never runs out). -/
def subKeyFuel (key val : List Char) : Nat → List Char → List Char
  | 0, s => s
  | _ + 1, [] => []
  | fuel + 1, c :: cs =>
      if ('$' :: key).isPrefixOf (c :: cs) then
        val ++ subKeyFuel key val fuel (cs.drop key.length)
      else c :: subKeyFuel key val fuel cs

/-- Left-to-right, non-overlapping replacement of every occurrence of
`'$' :: key` by `val` in `s` — the effect of
`re.sub(r'\$' + re.escape(key), str(value), s)`. -/
def subKey (key val s : List Char) : List Char := subKeyFuel key val s.length s

/-- One pass over the parameter dictionary in iteration order, replacing each
key's `$`-pattern in turn. -/
def subParams (params : List (List Char × List Char)) (s : List Char) : List Char :=
  params.foldl (fun acc kv => subKey kv.1 kv.2 acc) s

/-- Does `pat` occur as a contiguous run inside `s`? -/
def occursIn (pat : List Char) : List Char → Bool
  | [] => pat.isEmpty
  | c :: cs => pat.isPrefixOf (c :: cs) || occursIn pat cs

/-- An XML element: tag, attributes, optional text, children. -/
inductive XmlNode where
  | elem (tag : List Char) (attrs : List (List Char × List Char))
      (text : Option (List Char)) (children : List XmlNode)

mutual
/-- `replace_text`: substitute the parameters in the element's text, its
children (recursively) and its attribute values. -/
def substXml (params : List (List Char × List Char)) : XmlNode → XmlNode
  | .elem tag attrs text children =>
      .elem tag (attrs.map fun kv => (kv.1, subParams params kv.2))
        (text.map (subParams params)) (substXmlList params children)

def substXmlList (params : List (List Char × List Char)) : List XmlNode → List XmlNode
  | [] => []
  | x :: xs => substXml params x :: substXmlList params xs
end

/-- How loading and parsing the source XML file went. -/
inductive XmlLoad where
  | ok (tree : XmlNode)
  | fileNotFound
  | parseError
  | otherError

/-- Whether writing the output file succeeded. -/
inductive WriteOutcome where
  | writeOk
  | writeFail

/-- The Python return value of `replace_xml_parameters`: the empty string,
`None`, or the serialized modified tree. -/
inductive XmlRet where
  | emptyString
  | pyNone
  | xmlTree (t : XmlNode)

/-- lxml's deprecated element truth value: `not root` is true exactly when
the root element has no children, in which case the function returns `None`
before substituting. -/
def rootFalsy : XmlNode → Bool
  | .elem _ _ _ children => children.isEmpty

/-- `replace_xml_parameters` (`clip_clms_NDVI_SOAM.py` lines 450–519):
each load failure (missing file, parse error, any other exception) returns
`""`; a childless root returns `None`; otherwise the tree is substituted and
either written out (`""` on a write failure, an implicit `None` on success)
or returned as text. -/
def replace_xml_parameters (load : XmlLoad) (params : List (List Char × List Char))
    (output : Option WriteOutcome) : XmlRet :=
  match load with
  | .fileNotFound => .emptyString
  | .parseError => .emptyString
  | .otherError => .emptyString
  | .ok tree =>
      if rootFalsy tree then .pyNone
      else
        match output with
        | some .writeOk => .pyNone
        | some .writeFail => .emptyString
        | none => .xmlTree (substXml params tree)

/-! ### Driver dispatch (`automation_script.py`, `run_clipper_process`) -/

/-- What the `if/elif` chain binds to `clipper_function`: a reference to the
per-product routine (later called with the source-file path), or — when the
branch reads `run_..._clipping()` — the value returned by calling the routine
with zero arguments at selection time, or nothing at all. -/
inductive ClipperBinding where
  | direct (fname : String)
  | selectionCall (fname : String)
  | unbound
  deriving Repr, DecidableEq

/-- `true` iff the binding is the return value of a zero-argument call made
at selection time (so the source-file path is never passed to the routine). -/
def ClipperBinding.isSelectionCall : ClipperBinding → Bool
  | .selectionCall _ => true
  | _ => false

/-- The `if/elif` dispatch chain of `run_clipper_process` (lines 148–170 of
`automation_script.py`).  Only the DMP-AFRI, DMP-SOAM and NDVI-AFRI branches
bind the routine itself; every other branch calls the routine with zero
arguments (`run_..._clipping()`) and binds its return value. -/
def selectClipperFunction (productVar roi : String) : ClipperBinding :=
  if productVar = "DMP" ∧ roi = "AFRI" then .direct "run_dmp_afri_clipping"
  else if productVar = "DMP" ∧ roi = "SOAM" then .direct "run_dmp_soam_clipping"
  else if productVar = "NDVI" ∧ roi = "AFRI" then .direct "run_ndvi_afri_clipping"
  else if productVar = "NDVI" ∧ roi = "SOAM" then .selectionCall "run_ndvi_soam_clipping"
  else if productVar = "FAPAR" ∧ roi = "AFRI" then .selectionCall "run_fapar_afri_clipping"
  else if productVar = "FAPAR" ∧ roi = "SOAM" then .selectionCall "run_fapar_soam_clipping"
  else if productVar = "FCOVER" ∧ roi = "AFRI" then .selectionCall "run_fcover_afri_clipping"
  else if productVar = "FCOVER" ∧ roi = "SOAM" then .selectionCall "run_fcover_soam_clipping"
  else if productVar = "LAI" ∧ roi = "AFRI" then .selectionCall "run_lai_afri_clipping"
  else if productVar = "LAI" ∧ roi = "SOAM" then .selectionCall "run_lai_soam_clipping"
  else .unbound

/-! ## Helper lemmas -/

theorem argminAux_lt (t : ℚ) (rest : List ℚ) (bestIdx : Nat) (bestVal : ℚ) (cur : Nat)
    (h : bestIdx < cur) : argminAux t rest bestIdx bestVal cur < cur + rest.length := by
  induction rest generalizing bestIdx bestVal cur with
  | nil => simpa [argminAux] using h
  | cons x xs ih =>
      simp only [argminAux, List.length_cons]
      split
      · have := ih cur (absq (x - t)) (cur + 1) (by omega)
        omega
      · have := ih bestIdx bestVal (cur + 1) (by omega)
        omega

/-- On a non-empty axis the nearest-coordinate index is a valid index. -/
theorem argminAbs_lt_length (xs : List ℚ) (t : ℚ) (h : xs ≠ []) :
    argminAbs xs t < xs.length := by
  match xs with
  | x :: rest =>
      simp only [argminAbs, List.length_cons]
      have := argminAux_lt t rest 0 (absq (x - t)) 1 (by omega)
      omega

theorem applyQflag_getD (data q : List ℤ) (t o : ℤ) (i : Nat)
    (hlen : data.length = q.length) (hi : i < data.length) (hq : q.getD i 0 = t) :
    ((data.zip q).map fun p => if p.2 = t then o else p.1).getD i 0 = o := by
  induction data generalizing q i with
  | nil => simp at hi
  | cons d ds ih =>
      cases q with
      | nil => simp at hlen
      | cons x xs =>
          cases i with
          | zero =>
              simp only [List.getD_cons_zero] at hq
              simp [List.zip_cons_cons, hq]
          | succ j =>
              simp only [List.zip_cons_cons, List.map_cons, List.getD_cons_succ]
              simp only [List.length_cons] at hlen hi
              simp only [List.getD_cons_succ] at hq
              exact ih xs j (by omega) (by omega) hq

theorem splitLines_append (x t : List Char) (hx : '\n' ∉ x) :
    splitLines (x ++ '\n' :: t) = x :: splitLines t := by
  induction x with
  | nil => simp [splitLines]
  | cons c cs ih =>
      simp only [List.mem_cons, not_or] at hx
      have h1 : ¬ (c = '\n') := fun h => hx.1 h.symm
      simp only [List.cons_append, splitLines, if_neg h1, List.append_eq, ih hx.2]

theorem buildLedger_append_acc (names : List (List Char)) (t : List Char) :
    buildLedger names ++ t = names.foldr (fun n acc => n ++ '\n' :: acc) t := by
  induction names with
  | nil => rfl
  | cons n ns ih =>
      have h1 : buildLedger (n :: ns) = n ++ '\n' :: buildLedger ns := rfl
      rw [h1, List.append_assoc, List.cons_append, ih]
      rfl

theorem splitLines_buildLedger (names : List (List Char)) (h : ∀ n ∈ names, '\n' ∉ n) :
    splitLines (buildLedger names) = names ++ [[]] := by
  induction names with
  | nil => simp [buildLedger, splitLines]
  | cons n ns ih =>
      have hstep : buildLedger (n :: ns) = n ++ '\n' :: buildLedger ns := rfl
      rw [hstep, splitLines_append n _ (h n (by simp)),
        ih (fun m hm => h m (by simp [hm]))]
      rfl

theorem load_buildLedger (names : List (List Char)) (h : ∀ n ∈ names, cleanName n) :
    load_processed_list (buildLedger names) = names := by
  unfold load_processed_list
  rw [splitLines_buildLedger names (fun n hn => (h n hn).2.2.1)]
  have hmap : names.map pyStrip = names := by
    have := List.map_congr_left (fun n hn => (h n hn).2.1)
    simpa using this
  simp only [List.map_append, hmap, List.map_cons, List.map_nil]
  have hstrip : pyStrip ([] : List Char) = [] := rfl
  rw [hstrip]
  rw [List.filter_append]
  have hkeep : names.filter (fun l => !l.isEmpty) = names := by
    refine List.filter_eq_self.mpr (fun n hn => ?_)
    have := (h n hn).1
    simpa [List.isEmpty_iff] using this
  simp [hkeep]

theorem subKeyFuel_of_not_occurs (k v : List Char) :
    ∀ (fuel : Nat) (s : List Char), occursIn ('$' :: k) s = false →
      subKeyFuel k v fuel s = s := by
  intro fuel
  induction fuel with
  | zero => intro s _; rfl
  | succ f ih =>
      intro s hs
      cases s with
      | nil => rfl
      | cons c cs =>
          simp only [occursIn, Bool.or_eq_false_iff] at hs
          simp only [subKeyFuel, hs.1, Bool.false_eq_true, if_false, ih cs hs.2]

/-- A text in which a key's `$`-pattern does not occur is unchanged by that
key's substitution. -/
theorem subKey_of_not_occurs (k v s : List Char) (h : occursIn ('$' :: k) s = false) :
    subKey k v s = s := subKeyFuel_of_not_occurs k v s.length s h

theorem subParams_of_not_occurs :
    ∀ (params : List (List Char × List Char)) (s : List Char),
      (∀ kv ∈ params, occursIn ('$' :: kv.1) s = false) → subParams params s = s := by
  intro params
  induction params with
  | nil => intro s _; rfl
  | cons kv rest ih =>
      intro s h
      have h1 : subKey kv.1 kv.2 s = s := subKey_of_not_occurs _ _ _ (h kv (by simp))
      have hstep : subParams (kv :: rest) s = subParams rest (subKey kv.1 kv.2 s) := rfl
      rw [hstep, h1]
      exact ih s (fun kv' h' => h kv' (by simp [h']))

/-! ## Claim theorems -/

/-- C1: for every origin+extent clipping request whose window (nearest
latitude index + height, nearest longitude index shifted one right + width)
lies fully inside the source grid, `clip_all_vars_netcdf4` produces a window
of exactly `clip_width × clip_height` pixels, whose longitude start index is
one past the nearest-coordinate match and whose latitude start index is the
nearest-coordinate match, without a size-mismatch warning. -/
theorem clip_origin_extent_exact_window (latValues lonValues : List ℚ)
    (originLat originLon : ℚ) (clipWidth clipHeight : Nat) (hw : 0 < clipWidth)
    (hlat : argminAbs latValues originLat + clipHeight ≤ latValues.length)
    (hlon : argminAbs lonValues originLon + 1 + clipWidth ≤ lonValues.length) :
    originExtentWindows latValues lonValues originLat originLon clipWidth clipHeight =
      { latStart := argminAbs latValues originLat
        latEnd := argminAbs latValues originLat + clipHeight
        lonStart := argminAbs lonValues originLon + 1
        lonEnd := argminAbs lonValues originLon + 1 + clipWidth
        warn := false } := by
  unfold originExtentWindows
  simp only [ClipWindows.mk.injEq]
  set A := argminAbs latValues originLat with hA
  set B := argminAbs lonValues originLon with hB
  have h1 : min (B + 1) (lonValues.length - 1) = B + 1 := by omega
  have h2 : min (A + clipHeight) latValues.length = A + clipHeight := by omega
  rw [h1]
  have h3 : min (B + 1 + clipWidth) lonValues.length = B + 1 + clipWidth := by omega
  rw [h2, h3]
  have h4 : ¬ (A + clipHeight - A < clipHeight) := by omega
  have h5 : ¬ (B + 1 + clipWidth - (B + 1) < clipWidth) := by omega
  rw [if_neg h4, if_neg h5]
  refine ⟨rfl, rfl, rfl, rfl, ?_⟩
  simp only [Bool.or_eq_false_iff, bne_eq_false_iff_eq]
  omega

section
attribute [local semireducible] Rat.add Rat.sub Rat.mul Rat.inv

/-- Witness for C1: on the spec's concrete grid
`lat = [20.0, 19.991, …]`, `lon = [-110.0, -109.991, …]` with
`origin_lat = 20.0`, `origin_lon = -110.0`, `width = height = 100`, the window
is lat indices `[0, 100)` and lon indices `[1, 101)`, with no warning. -/
theorem clip_origin_extent_exact_window_witness :
    originExtentWindows demoLat demoLon 20 (-110) 100 100 =
      { latStart := 0, latEnd := 100, lonStart := 1, lonEnd := 101, warn := false } := by
  have hlat : argminAbs demoLat 20 = 0 := by decide
  have hlon : argminAbs demoLon (-110) = 0 := by decide
  have h := clip_origin_extent_exact_window demoLat demoLon 20 (-110) 100 100
    (by omega) (by rw [hlat]; decide) (by rw [hlon]; decide)
  rw [h, hlat, hlon]

/-- Counterexample to C3: with `lat = [20, 19, 18, 17, 16]`,
`lon = [16, 17, 18, 19, 20]`, `origin_lat = origin_lon = 18`,
`clip_width = 2`, `clip_height = 4`, the requested extent exceeds the grid
available from the chosen origin (latitude start index 2, only 3 rows left,
4 requested), yet the pulled-back window `[1,5)×[3,5)` has exactly the
requested size and no size-mismatch warning is emitted — the claim's
"emits a size-mismatch warning" fails. -/
theorem clip_overrun_no_warning_cex :
    argminAbs [20, 19, 18, 17, 16] 18 = 2 ∧
    2 + 4 > ([20, 19, 18, 17, 16] : List ℚ).length ∧
    originExtentWindows [20, 19, 18, 17, 16] [16, 17, 18, 19, 20] 18 18 2 4 =
      { latStart := 1, latEnd := 5, lonStart := 3, lonEnd := 5, warn := false } := by
  decide

end

/-- C3 (amended): for every origin+extent request on non-empty axes the
resulting window is clamped to the grid (`end ≤ axis_length`, `start ≤ end`),
its size along each axis is `min(requested, axis_length)`, and the
size-mismatch warning is emitted exactly when the requested extent exceeds
the whole axis length (when the extent merely overruns the grid from the
chosen origin but fits in the axis, the start index is pulled back and no
warning is emitted); the computation is total, so no exception is raised. -/
theorem clip_window_clamped_warn_iff_axis_exceeded (latValues lonValues : List ℚ)
    (originLat originLon : ℚ) (clipWidth clipHeight : Nat)
    (hlat : latValues ≠ []) (hlon : lonValues ≠ []) :
    (originExtentWindows latValues lonValues originLat originLon clipWidth clipHeight).latEnd ≤
        latValues.length ∧
    (originExtentWindows latValues lonValues originLat originLon clipWidth clipHeight).lonEnd ≤
        lonValues.length ∧
    (originExtentWindows latValues lonValues originLat originLon clipWidth clipHeight).latStart ≤
      (originExtentWindows latValues lonValues originLat originLon clipWidth clipHeight).latEnd ∧
    (originExtentWindows latValues lonValues originLat originLon clipWidth clipHeight).lonStart ≤
      (originExtentWindows latValues lonValues originLat originLon clipWidth clipHeight).lonEnd ∧
    (originExtentWindows latValues lonValues originLat originLon clipWidth clipHeight).latEnd -
      (originExtentWindows latValues lonValues originLat originLon clipWidth clipHeight).latStart =
        min clipHeight latValues.length ∧
    (originExtentWindows latValues lonValues originLat originLon clipWidth clipHeight).lonEnd -
      (originExtentWindows latValues lonValues originLat originLon clipWidth clipHeight).lonStart =
        min clipWidth lonValues.length ∧
    ((originExtentWindows latValues lonValues originLat originLon clipWidth clipHeight).warn
        = true ↔
      latValues.length < clipHeight ∨ lonValues.length < clipWidth) := by
  have hA := argminAbs_lt_length latValues originLat hlat
  have hB := argminAbs_lt_length lonValues originLon hlon
  unfold originExtentWindows
  simp only [bne_iff_ne, ne_eq, Bool.or_eq_true, decide_eq_true_eq]
  split_ifs <;>
    refine ⟨by omega, by omega, by omega, by omega, by omega, by omega, by omega⟩

/-- Witness for C3 (amended): applied to a 3-row, 3-column grid with a
request of 5×5 from its centre: the window is the whole grid and the warning
fires. -/
theorem clip_window_clamped_witness :
    (originExtentWindows [3, 2, 1] [1, 2, 3] 2 2 5 5).latEnd ≤ 3 ∧
    (originExtentWindows [3, 2, 1] [1, 2, 3] 2 2 5 5).latEnd -
      (originExtentWindows [3, 2, 1] [1, 2, 3] 2 2 5 5).latStart = min 5 3 ∧
    (originExtentWindows [3, 2, 1] [1, 2, 3] 2 2 5 5).warn = true := by
  have h := clip_window_clamped_warn_iff_axis_exceeded [3, 2, 1] [1, 2, 3] 2 2 5 5
    (by simp) (by simp)
  refine ⟨h.1, ?_, ?_⟩
  · simpa using h.2.2.2.2.1
  · exact h.2.2.2.2.2.2.mpr (Or.inl (by simp))

/-- C2: in `createQuicklook_new`'s output byte raster, when the configured
flag band has the primary band's shape, every pixel whose flag value equals
the trigger value holds exactly the configured override value, regardless of
the primary band's value at that pixel; when the shapes differ the override
is skipped (the data is left unchanged and the applied-flag is false) rather
than failing. -/
theorem quicklook_qflag_override (data q : List ℤ) (trigger override : ℤ) :
    (∀ i, data.length = q.length → i < data.length → q.getD i 0 = trigger →
      (createQuicklook_new_raster data (some q) trigger override).getD i 0 = override) ∧
    (data.length ≠ q.length →
      createQuicklook_new_raster data (some q) trigger override = data ∧
      (applyQflagOverride data (some q) trigger override).2 = false) := by
  constructor
  · intro i hlen hi hq
    have hstep : createQuicklook_new_raster data (some q) trigger override =
        (data.zip q).map fun p => if p.2 = trigger then override else p.1 := by
      unfold createQuicklook_new_raster applyQflagOverride
      simp [hlen]
    rw [hstep]
    exact applyQflag_getD data q trigger override i hlen hi hq
  · intro h
    unfold createQuicklook_new_raster applyQflagOverride
    simp [h]

/-- Witness for C2: pixel 0 with flag 128 is forced to 254 whatever its data
value; with a mismatched flag shape the data passes through unchanged. -/
theorem quicklook_qflag_override_witness :
    (createQuicklook_new_raster [10, 20] (some [128, 5]) 128 254).getD 0 0 = 254 ∧
    createQuicklook_new_raster [1] (some [1, 2]) 1 255 = [1] :=
  ⟨(quicklook_qflag_override [10, 20] [128, 5] 128 254).1 0 (by decide) (by decide) (by decide),
   ((quicklook_qflag_override [1] [1, 2] 1 255).2 (by decide)).1⟩

/-- Counterexample to C4: the legacy `createQuicklook` (called by
`thumbnail_view`) only checks that `ql_Subsample` is a list, so a
configuration whose subsample is a one-element list — not a two-element list
of positive integers — passes validation and proceeds to output I/O instead
of returning a structured failure. -/
theorem legacy_subsample_validation_cex :
    createQuicklook_validate
        { ql_NDV := 255, ql_Min := 0, ql_Max := 210,
          ql_Subsample := some [(true, 1)], inFileExists := true } = .proceeded ∧
    subsampleOkNew
        { ql_NDV := 255, ql_Min := 0, ql_Max := 210,
          ql_Subsample := some [(true, 1)], inFileExists := true } = false := by
  decide

/-- C4 (amended): `createQuicklook_new` falls through its validation phase —
which runs before any output I/O and returns a structured `(False, message)`
failure otherwise — exactly when `ql_NDV`, `ql_Min`, `ql_Max` all lie in
`[0,255]`, `ql_Subsample` is a two-element list of positive integers, and the
input file exists; the legacy `createQuicklook` checks the same ranges and
file existence but requires only that `ql_Subsample` is a list. -/
theorem quicklook_validation_conditions (p : QlParams) :
    (createQuicklook_new_validate p).ok =
      (qlRangesOk p && subsampleOkNew p && p.inFileExists) ∧
    (createQuicklook_validate p).ok =
      (qlRangesOk p && subsampleOkOld p && p.inFileExists) := by
  constructor
  · unfold createQuicklook_new_validate
    cases h1 : qlRangesOk p <;> cases h2 : subsampleOkNew p <;>
      cases h3 : p.inFileExists <;> simp [QlOutcome.ok, h1, h2, h3]
  · unfold createQuicklook_validate
    cases h1 : qlRangesOk p <;> cases h2 : subsampleOkOld p <;>
      cases h3 : p.inFileExists <;> simp [QlOutcome.ok, h1, h2, h3]

/-- C5: when the determinable source range equals the requested output range,
`createQuicklook` selects `scaleParams = None` (no scale parameters are
applied), and the raster library's byte conversion then maps every pixel to
the clamped input pixel. -/
theorem quantization_identity_on_matching_range (m M v : ℤ) :
    selectScaleParams (some m) (some M) m M = .ok none ∧
    gdalTranslateByte none (v : ℚ) = clampByte v := by
  constructor
  · simp [selectScaleParams]
  · simp [gdalTranslateByte, round_intCast]

/-- C6: with `ql_Min = 0`, `ql_Max = 210` and source `valid_range = [0, 250]`,
`createQuicklook` builds the scale parameters `[[0, 250, 0, 210]]`, and the
affine byte rescale maps the input value 125 to
`round(125 / 250 * 210) = 105`. -/
theorem quantizer_affine_concrete_values :
    selectScaleParams (some 0) (some 250) 0 210 = .ok (some (some 0, some 250, 0, 210)) ∧
    gdalTranslateByte (some (0, 250, 0, 210)) 125 = 105 ∧
    round ((125 : ℚ) / 250 * 210) = 105 := by
  refine ⟨by rfl, ?_, ?_⟩
  · show clampByte (round ((125 - 0) / (250 - 0) * (210 - 0) + 0 : ℚ)) = 105
    norm_num [clampByte]
  · norm_num

/-- Counterexample to C7: marking the all-whitespace name `" "` does not make
`is_processed " "` true — the loader strips each line and drops empties, so
the marked name is never found again (the claim's "for every name X" fails). -/
theorem ledger_whitespace_name_cex :
    is_processed (write_to_processed_list [] [' ']) [' '] = false := by decide

/-- C7 (amended): for names that are non-empty, newline-free and invariant
under stripping, the ledger round-trips: after appending `X` to a ledger
built from such names, `is_processed X` is true, and `is_processed Y` is
false for every such `Y` that was never marked. -/
theorem ledger_roundtrip_clean_names (names : List (List Char)) (x : List Char)
    (hn : ∀ n ∈ names, cleanName n) (hx : cleanName x) :
    is_processed (write_to_processed_list (buildLedger names) x) x = true ∧
    ∀ y, cleanName y → y ∉ names → y ≠ x →
      is_processed (write_to_processed_list (buildLedger names) x) y = false := by
  have hledger : write_to_processed_list (buildLedger names) x = buildLedger (names ++ [x]) := by
    unfold write_to_processed_list
    rw [List.append_assoc, buildLedger_append_acc names (x ++ ['\n'])]
    unfold buildLedger
    rw [List.foldr_append]
    rfl
  have hall : ∀ n ∈ names ++ [x], cleanName n := by
    intro n hn'
    rcases List.mem_append.mp hn' with h | h
    · exact hn n h
    · simp only [List.mem_singleton] at h
      exact h ▸ hx
  rw [hledger]
  unfold is_processed
  rw [load_buildLedger (names ++ [x]) hall]
  constructor
  · simp [List.contains, List.elem_eq_mem]
  · intro y _ hy hyx
    simp [List.contains, List.elem_eq_mem, List.mem_append, hy, hyx]

/-- Witness for C7 (amended): with ledger `["a"]`, after marking `"b"`,
`is_processed "b"` is true and `is_processed "c"` is false. -/
theorem ledger_roundtrip_witness :
    is_processed (write_to_processed_list (buildLedger [['a']]) ['b']) ['b'] = true ∧
    is_processed (write_to_processed_list (buildLedger [['a']]) ['b']) ['c'] = false :=
  ⟨(ledger_roundtrip_clean_names [['a']] ['b'] (by decide) (by decide)).1,
   (ledger_roundtrip_clean_names [['a']] ['b'] (by decide) (by decide)).2 ['c']
     (by decide) (by decide) (by decide)⟩

/-- Counterexample to C8: with the mapping `{roi: X}`, the token
`$roi_name` — whose name `roi_name` is not a key of the mapping — is not left
untouched: `re.sub(r'\$roi', ...)` matches its prefix and rewrites the text
to `X_name`. -/
theorem xml_prefix_key_rewrites_cex :
    replace_xml_parameters
        (.ok (.elem ['r'] [] none
          [.elem ['c'] [] (some ['$', 'r', 'o', 'i', '_', 'n', 'a', 'm', 'e']) []]))
        [(['r', 'o', 'i'], ['X'])] none
      = .xmlTree (.elem ['r'] [] none
          [.elem ['c'] [] (some ['X', '_', 'n', 'a', 'm', 'e']) []]) ∧
    (['X', '_', 'n', 'a', 'm', 'e'] : List Char) ≠
      ['$', 'r', 'o', 'i', '_', 'n', 'a', 'm', 'e'] :=
  ⟨rfl, by decide⟩

/-- C8 (amended): `replace_xml_parameters` returns the empty string — rather
than propagating an exception — when the source file is missing, when the
input is not well-formed XML, when any other load error occurs, and when
writing the output file fails; and a text in which no mapping key's
`$`-pattern occurs at all (in particular one whose `$`-tokens have no mapping
key as a prefix of their name) is left untouched by the substitution. -/
theorem xml_failures_empty_and_unmatched_tokens :
    (∀ params output, replace_xml_parameters .fileNotFound params output = .emptyString) ∧
    (∀ params output, replace_xml_parameters .parseError params output = .emptyString) ∧
    (∀ params output, replace_xml_parameters .otherError params output = .emptyString) ∧
    (∀ tree params, rootFalsy tree = false →
      replace_xml_parameters (.ok tree) params (some .writeFail) = .emptyString) ∧
    (∀ params s, (∀ kv ∈ params, occursIn ('$' :: kv.1) s = false) →
      subParams params s = s) := by
  refine ⟨fun _ _ => rfl, fun _ _ => rfl, fun _ _ => rfl, ?_, ?_⟩
  · intro tree params h
    simp only [replace_xml_parameters, h, Bool.false_eq_true, if_false]
  · exact fun params s h => subParams_of_not_occurs params s h

/-- Witness for C8 (amended): a missing file yields the empty string, and a
text with no `$roi` occurrence is unchanged by the `{roi: X}` substitution. -/
theorem xml_failures_witness :
    replace_xml_parameters .fileNotFound [(['r', 'o', 'i'], ['X'])] none = .emptyString ∧
    subParams [(['r', 'o', 'i'], ['X'])] ['h', 'i'] = ['h', 'i'] :=
  ⟨xml_failures_empty_and_unmatched_tokens.1 [(['r', 'o', 'i'], ['X'])] none,
   xml_failures_empty_and_unmatched_tokens.2.2.2.2 [(['r', 'o', 'i'], ['X'])] ['h', 'i']
     (by decide)⟩

/-- C9: every exception in the body of `clip_all_vars_netcdf4` is caught by
its top-level `try/except`, after which the function returns normally with no
output file; on success it returns normally with the clipped output; so an
output file exists exactly when the body succeeded, and callers can detect
failure only through that file's existence. -/
theorem clip_all_vars_never_raises (msg : String) (src : SrcDataset)
    (originLat originLon : ℚ) (clipWidth clipHeight : Nat) :
    clip_all_vars_netcdf4 (.error msg) originLat originLon clipWidth clipHeight = none ∧
    clip_all_vars_netcdf4 (.ok src) originLat originLon clipWidth clipHeight =
      some (clipBody src originLat originLon clipWidth clipHeight) ∧
    ∀ e : Except String SrcDataset,
      (clip_all_vars_netcdf4 e originLat originLon clipWidth clipHeight).isSome =
        e.toBool := by
  refine ⟨rfl, rfl, fun e => ?_⟩
  cases e <;> rfl

/-- C10: in `run_clipper_process`'s dispatch chain, every product/region pair
other than (DMP, AFRI), (DMP, SOAM) and (NDVI, AFRI) invokes its
`run_*_clipping` routine with zero arguments at selection time and binds the
call's return value as `clipper_function`, so the computed source-file path
is never passed to those routines. -/
theorem dispatch_calls_routine_at_selection (p r : String)
    (hp : p = "DMP" ∨ p = "NDVI" ∨ p = "FAPAR" ∨ p = "FCOVER" ∨ p = "LAI")
    (hr : r = "AFRI" ∨ r = "SOAM")
    (hex : ¬((p = "DMP" ∧ r = "AFRI") ∨ (p = "DMP" ∧ r = "SOAM") ∨
      (p = "NDVI" ∧ r = "AFRI"))) :
    (selectClipperFunction p r).isSelectionCall = true := by
  rcases hp with hp | hp | hp | hp | hp <;> rcases hr with hr | hr <;> subst hp <;> subst hr <;>
    first
      | exact (hex (Or.inl ⟨rfl, rfl⟩)).elim
      | exact (hex (Or.inr (Or.inl ⟨rfl, rfl⟩))).elim
      | exact (hex (Or.inr (Or.inr ⟨rfl, rfl⟩))).elim
      | rfl

/-- Witness for C10: the (LAI, SOAM) pair binds the value returned by calling
`run_lai_soam_clipping()` at selection time. -/
theorem dispatch_calls_routine_at_selection_witness :
    (selectClipperFunction "LAI" "SOAM").isSelectionCall = true :=
  dispatch_calls_routine_at_selection "LAI" "SOAM" (by simp) (by simp) (by simp)

end ClmsClip

